import Mathlib

/-!
# AIRankTrackerGenie — verification of the tracking core

Shallow embedding of the backend's tracking engine, scoring service, worker
and schedule route (`src/app/backend/src/services/trackingEngine.ts`,
`services/scoring.ts`, `worker/index.ts`, `routes/public.ts`,
`db/schema.sql`), with theorems settling the specification claims about
citation records, alerts, scheduling and scoring.

Machine numbers in the source are JavaScript doubles; all quantities that
matter to the claims here (scores, percentages, thresholds) are modelled as
rationals.  At the one place where the float value of a threshold matters —
`generateSummary` compares an index against `maxLength * 0.7` and every call
site uses `maxLength = 500` — the IEEE-754 product `500 * 0.7` is exactly
`350`, so the rational model uses that exact constant.
-/

namespace AIRank

/-! ## Splitting on runs of delimiter characters

`text.split(/[.!?]+/)` and `text.split(/\s+/)` in the source split on
maximal runs of delimiter characters: a run of consecutive delimiters
produces a single split point (no empty tokens inside a run), while a
leading or trailing delimiter still yields a leading or trailing empty
token.  `splitRunsF p cs acc afterDelim` folds over the characters with the
current token accumulated in reverse in `acc`; `afterDelim` records that the
previous character was a delimiter, so further delimiters are absorbed. -/

def splitRunsF (p : Char → Bool) : List Char → List Char → Bool → List String
  | [], acc, _ => [String.mk acc.reverse]
  | c :: cs, acc, afterDelim =>
    if p c then
      if afterDelim then splitRunsF p cs acc afterDelim
      else String.mk acc.reverse :: splitRunsF p cs [] true
    else splitRunsF p cs (c :: acc) false

/-- Split a string on maximal runs of characters satisfying `p`,
with JavaScript `String.prototype.split(regex)` semantics. -/
def splitRegexRuns (p : Char → Bool) (s : String) : List String :=
  splitRunsF p s.data [] false

/-- The sentence delimiters of the `/[.!?]+/` regex in `analyzeSentiment`. -/
def isSentenceDelim (c : Char) : Bool := c = '.' || c = '!' || c = '?'

/-- `text.split(/[.!?]+/)` from `trackingEngine.ts` (`analyzeSentiment`). -/
def splitSentences (text : String) : List String :=
  splitRegexRuns isSentenceDelim text

/-- `response.response_text.split(/\s+/).length` from `trackOnPlatform`. -/
def wordCount (text : String) : Nat :=
  (splitRegexRuns (fun c => c.isWhitespace) text).length

/-- JavaScript `haystack.includes(needle)`: substring containment. -/
def containsSub (haystack needle : String) : Bool :=
  haystack.data.tails.any (fun t => needle.data.isPrefixOf t)

/-- JavaScript `s.toLowerCase()` (character-wise, as in the source's ASCII
domains and lexicons). -/
def toLowerStr (s : String) : String := String.mk (s.data.map Char.toLower)

/-! ## Sentiment (`analyzeSentiment`, trackingEngine.ts lines 220–241) -/

inductive Sentiment where
  | positive
  | neutral
  | negative
deriving DecidableEq, Repr

/-- The hard-coded positive lexicon of `analyzeSentiment`. -/
def positiveWords : List String :=
  ["best", "excellent", "top", "recommended", "leading", "outstanding", "superior"]

/-- The hard-coded negative lexicon of `analyzeSentiment`. -/
def negativeWords : List String :=
  ["worst", "poor", "avoid", "bad", "terrible", "disappointing"]

/-- `analyzeSentiment(text, domain)` from `trackingEngine.ts`: split into
sentences on runs of `[.!?]+`, keep sentences whose lowercased form contains
the lowercased domain; if none, `neutral`; otherwise count how many lexicon
words occur as substrings of the lowercased join of the kept sentences and
compare the two counts. -/
def analyzeSentiment (text domain : String) : Sentiment :=
  let sentences := splitSentences text
  let relevantSentences := sentences.filter
    (fun s => containsSub (toLowerStr s) (toLowerStr domain))
  if relevantSentences.isEmpty then Sentiment.neutral
  else
    let relevantText := toLowerStr (String.intercalate " " relevantSentences)
    let positiveCount := (positiveWords.filter
      (fun w => containsSub relevantText w)).length
    let negativeCount := (negativeWords.filter
      (fun w => containsSub relevantText w)).length
    if positiveCount > negativeCount then Sentiment.positive
    else if negativeCount > positiveCount then Sentiment.negative
    else Sentiment.neutral

/-- Number of occurrences of `needle` as a substring of `haystack`
(one per starting index). -/
def countOccurrences (haystack needle : String) : Nat :=
  (haystack.data.tails.filter (fun t => needle.data.isPrefixOf t)).length

/-- The sentiment computation as the claim words it: occurrences of each
lexicon word are counted with multiplicity ("repeated occurrences of the
same word each counting").  Written from the claim, for comparison with
`analyzeSentiment`. -/
def sentimentClaim (text domain : String) : Sentiment :=
  let kept := (splitSentences text).filter
    (fun s => containsSub (toLowerStr s) (toLowerStr domain))
  if kept = [] then Sentiment.neutral
  else
    let joined := toLowerStr (String.intercalate " " kept)
    let p := (positiveWords.map (fun w => countOccurrences joined w)).sum
    let n := (negativeWords.map (fun w => countOccurrences joined w)).sum
    if n < p then Sentiment.positive
    else if p < n then Sentiment.negative
    else Sentiment.neutral

/-- The sentiment computation as amended: each lexicon word contributes at
most once, however many times it occurs.  Written independently of
`analyzeSentiment` (via `countP`), to be proved equal to it. -/
def sentimentAmended (text domain : String) : Sentiment :=
  let kept := (splitSentences text).filter
    (fun s => containsSub (toLowerStr s) (toLowerStr domain))
  if kept = [] then Sentiment.neutral
  else
    let joined := toLowerStr (String.intercalate " " kept)
    let p := positiveWords.countP (fun w => containsSub joined w)
    let n := negativeWords.countP (fun w => containsSub joined w)
    if n < p then Sentiment.positive
    else if p < n then Sentiment.negative
    else Sentiment.neutral

/-! ## Domain matching (`domainMatches`, trackingEngine.ts lines 208–215) -/

/-- JavaScript `s.trim()` on the character list. -/
def trimChars (cs : List Char) : List Char :=
  ((cs.dropWhile Char.isWhitespace).reverse.dropWhile Char.isWhitespace).reverse

/-- `normalize` inside `domainMatches`:
`d.toLowerCase().replace(/^www\./, '').trim()`. -/
def normalizeDomain (d : String) : String :=
  let lower := (toLowerStr d).data
  let stripped := if ['w', 'w', 'w', '.'].isPrefixOf lower then lower.drop 4 else lower
  String.mk (trimChars stripped)

/-- `domainMatches(citationDomain, targetDomain)`: equality after
normalization, or the citation host ends with `"." + target` (subdomain). -/
def domainMatches (citationDomain targetDomain : String) : Bool :=
  let nc := normalizeDomain citationDomain
  let nt := normalizeDomain targetDomain
  nc == nt || ("." ++ nt).data.isSuffixOf nc.data

/-! ## Provider answers and the citation record (trackingEngine.ts) -/

/-- An entry of `response.citations` as the engine consumes it
(`AICitation` in `types.ts`; the fields the engine reads). -/
structure AICitation where
  url : String
  snippet : Option String
  position : Nat
  domain : String
deriving DecidableEq, Repr

/-- A successful provider answer (`AIPlatformResponse` in `types.ts`).
An answer carrying `error` makes `trackOnPlatform` return a failure before
any citation is built, so errored answers are represented upstream by the
absence of a response. -/
structure AIPlatformResponse where
  response_text : String
  citations : List AICitation
  response_time_ms : Nat
deriving DecidableEq, Repr

/-- `isDomainMentioned(response, domain)`. -/
def isDomainMentioned (response : AIPlatformResponse) (domain : String) : Bool :=
  response.citations.any (fun c => domainMatches c.domain domain)

/-- An element of `competitor_citations` as built in `trackOnPlatform`. -/
structure CompetitorCitation where
  domain : String
  url : String
  position : Nat
  context : Option String
deriving DecidableEq, Repr

/-- The competitor list of `trackOnPlatform`: every response citation whose
domain does not match the primary domain. -/
def competitorCitationsOf (response : AIPlatformResponse) (primaryDomain : String) :
    List CompetitorCitation :=
  (response.citations.filter (fun c => !domainMatches c.domain primaryDomain)).map
    (fun c => ⟨c.domain, c.url, c.position, c.snippet⟩)

/-! ## Confidence (`calculateConfidence`, trackingEngine.ts lines 246–260) -/

/-- `Math.min` on rationals, by cases (kernel-evaluable). -/
def ratMin (a b : ℚ) : ℚ := if a ≤ b then a else b

/-- `Math.max` on rationals, by cases (kernel-evaluable). -/
def ratMax (a b : ℚ) : ℚ := if b ≤ a then a else b

/-- `calculateConfidence(response)`: base 0.5; +0.2 if ≥5 citations else
+0.1 if ≥3; +0.1 if response time < 3000 ms; +0.1 if response text longer
than 500 characters; clamped into [0,1]. -/
def calculateConfidence (response : AIPlatformResponse) : ℚ :=
  let base : ℚ := 1 / 2
  let s1 := if 5 ≤ response.citations.length then base + 1 / 5
    else if 3 ≤ response.citations.length then base + 1 / 10
    else base
  let s2 := if response.response_time_ms < 3000 then s1 + 1 / 10 else s1
  let s3 := if 500 < response.response_text.length then s2 + 1 / 10 else s2
  ratMin 1 (ratMax 0 s3)

/-! ## Summary (`generateSummary`, trackingEngine.ts lines 265–277) -/

/-- JavaScript `s.lastIndexOf('.')`: the index of the last `'.'`, `-1` if
none. -/
def lastIndexOfDot (cs : List Char) : Int :=
  cs.enum.foldl (fun acc p => if p.2 = '.' then (p.1 : Int) else acc) (-1)

/-- `generateSummary` on the character list: texts of length at most
`maxLength` pass through; otherwise take the first `maxLength` characters
and, when the last `'.'` of that prefix sits at an index strictly greater
than `maxLength * 0.7` (the IEEE product is exactly `350` at the call
sites' `maxLength = 500`), cut just after it, else append `"..."`. -/
def generateSummaryL (cs : List Char) (maxLength : Nat) : List Char :=
  if cs.length ≤ maxLength then cs
  else
    let truncated := cs.take maxLength
    let lastSentence := lastIndexOfDot truncated
    if (7 : ℚ) / 10 * (maxLength : ℚ) < (lastSentence : ℚ) then
      truncated.take (lastSentence + 1).toNat
    else truncated ++ ['.', '.', '.']

/-- `generateSummary(text, maxLength = 500)` from `trackingEngine.ts`. -/
def generateSummary (text : String) (maxLength : Nat := 500) : String :=
  String.mk (generateSummaryL text.data maxLength)

/-! ## The persisted citation record (`trackOnPlatform`, lines 153–188) -/

/-- The `Citation` payload built by `trackOnPlatform` and written verbatim
by `storeCitation`. -/
structure CitationRec where
  keyword_id : String
  project_id : String
  platform : String
  tracked_at : Nat
  domain_mentioned : Bool
  specific_url : Option String
  citation_position : Option Nat
  citation_context : Option String
  full_response_text : String
  response_summary : String
  sentiment : Sentiment
  confidence_score : ℚ
  word_count : Nat
  competitor_citations : List CompetitorCitation
  total_sources_cited : Nat
deriving DecidableEq, Repr

/-- The citation record `trackOnPlatform` builds from a successful provider
response: `domain_mentioned` via `isDomainMentioned`, the target citation as
the first matching entry, competitors as the non-matching entries, and
`total_sources_cited := response.citations.length`. -/
def buildCitation (keywordId projectId platform : String) (primaryDomain : String)
    (response : AIPlatformResponse) (now : Nat) : CitationRec :=
  let domainMentioned := isDomainMentioned response primaryDomain
  let yourCitation := if domainMentioned then
      response.citations.find? (fun c => domainMatches c.domain primaryDomain)
    else none
  { keyword_id := keywordId
    project_id := projectId
    platform := platform
    tracked_at := now
    domain_mentioned := domainMentioned
    specific_url := yourCitation.map (·.url)
    citation_position := yourCitation.map (·.position)
    citation_context := yourCitation.bind (·.snippet)
    full_response_text := response.response_text
    response_summary := generateSummary response.response_text
    sentiment := analyzeSentiment response.response_text primaryDomain
    confidence_score := calculateConfidence response
    word_count := wordCount response.response_text
    competitor_citations := competitorCitationsOf response primaryDomain
    total_sources_cited := response.citations.length }

/-! ## Tracking-job scheduling (`routes/public.ts` POST `/schedule`,
`db/schema.sql` table `tracking_jobs`) -/

/-- A row of the `tracking_jobs` table (the columns the schedule route and
the worker touch).  `id` is the `uuid_generate_v4()` primary key, modelled
as a counter of fresh values. -/
structure TrackingJobRow where
  id : Nat
  project_id : String
  keyword_id : String
  platform : String
  scheduled_at : Nat
  status : String
  retry_count : Nat
deriving DecidableEq, Repr

/-- The `tracking_jobs` table plus the generator of fresh primary keys. -/
structure JobsState where
  rows : List TrackingJobRow
  nextId : Nat
deriving DecidableEq, Repr

/-- One `INSERT INTO tracking_jobs ... ON CONFLICT DO NOTHING` from the
schedule route.  In `schema.sql` the only unique constraint on
`tracking_jobs` is the primary key `id`, which receives a fresh
`uuid_generate_v4()` value, so the conflict clause never fires and the
insert always adds a row with status `'pending'` and `retry_count` 0. -/
def insertTrackingJob (s : JobsState) (projectId keywordId platform : String)
    (scheduledAt : Nat) : JobsState :=
  { rows := s.rows ++ [⟨s.nextId, projectId, keywordId, platform, scheduledAt, "pending", 0⟩]
    nextId := s.nextId + 1 }

/-- The nested loops of `router.post('/schedule')`: one insert per
(keyword, platform) pair of the request. -/
def scheduleJobs (s : JobsState) (projectId : String)
    (keywordIds platformList : List String) (scheduledAt : Nat) : JobsState :=
  keywordIds.foldl
    (fun st kid => platformList.foldl
      (fun st2 p => insertTrackingJob st2 projectId kid p scheduledAt) st)
    s

/-- Count of `'pending'` rows, as the idempotence claim measures the final
state. -/
def pendingCount (s : JobsState) : Nat :=
  s.rows.countP (fun r => r.status == "pending")

/-! ## Worker failure path (`processTrackingJob`, worker/index.ts
lines 133–146) -/

/-- The `catch` block of `processTrackingJob`: on any exception the job row
is updated with `status = 'failed'` and `retry_count = retry_count + 1`,
unconditionally. -/
def onJobException (row : TrackingJobRow) : TrackingJobRow :=
  { row with status := "failed", retry_count := row.retry_count + 1 }

/-- Modelled from the spec: the retry rule of §4.5 step 6 — "On exception:
increment `retry_count`, set status to `retrying` if `retry_count <
maxRetries` (default 3), else `failed`" — which `worker/index.ts` was meant
to implement (the schema's status CHECK lists `'retrying'` and the
`/tracking/queue` route treats it as non-terminal, but the worker never
writes it). -/
def onJobExceptionSpec (row : TrackingJobRow) (maxRetries : Nat) : TrackingJobRow :=
  { row with
    retry_count := row.retry_count + 1
    status := if row.retry_count < maxRetries then "retrying" else "failed" }

/-! ## Alerts (`checkForAlerts`, worker/index.ts lines 149–222) -/

/-- The row the alert query returns: `SELECT domain_mentioned,
citation_position FROM citations WHERE keyword_id = $1 AND platform = $2
ORDER BY tracked_at DESC OFFSET 1 LIMIT 1`. -/
structure PrevCitationRow where
  domain_mentioned : Bool
  citation_position : Option Nat
deriving DecidableEq, Repr

/-- JavaScript truthiness of an optional numeric column: `undefined`,
`null` and `0` are falsy. -/
def posTruthy : Option Nat → Bool
  | none => false
  | some n => n != 0

/-- An `alerts` row as `createAlert` receives it (the fields
`checkForAlerts` fills).  `change_percent` is the exact rational the worker
computes; the `alerts.change_percent` column is `DECIMAL(6,2)`, so the
persisted value is this rational rounded to two decimals. -/
structure AlertRec where
  alert_type : String
  severity : String
  previous_value : Option String
  current_value : Option String
  change_percent : Option ℚ
deriving DecidableEq, Repr

/-- `previous?.domain_mentioned` / `current?.domain_mentioned` truthiness:
a missing record reads as false. -/
def mentionedTruthy (c : Option CitationRec) : Bool :=
  (c.map (·.domain_mentioned)).getD false

/-- `checkForAlerts`, given the previous-row query result and
`result.citation` (absent when the tracking attempt failed).  The branches
mirror worker/index.ts lines 170–217: `new_citation` when no previous row
exists and the current citation mentions the domain; `lost_citation` when
the previous row mentions the domain and the current one is absent or does
not; `position_change` when both positions are truthy and the absolute
change is at least 2. -/
def checkForAlerts (previous : Option PrevCitationRow) (current : Option CitationRec) :
    List AlertRec :=
  match previous with
  | none =>
    if mentionedTruthy current then
      [{ alert_type := "new_citation", severity := "info"
         previous_value := none, current_value := none, change_percent := none }]
    else []
  | some prev =>
    if prev.domain_mentioned && !mentionedTruthy current then
      [{ alert_type := "lost_citation", severity := "warning"
         previous_value := prev.citation_position.map toString
         current_value := none, change_percent := none }]
    else if posTruthy prev.citation_position &&
        posTruthy (current.bind (·.citation_position)) then
      let prevPos := prev.citation_position.getD 0
      let currPos := (current.bind (·.citation_position)).getD 0
      let positionChange : Int := (prevPos : Int) - (currPos : Int)
      if 2 ≤ positionChange.natAbs then
        [{ alert_type := "position_change"
           severity := if 0 < positionChange then "info" else "warning"
           previous_value := some (toString prevPos)
           current_value := some (toString currPos)
           change_percent := some ((positionChange : ℚ) / (prevPos : ℚ) * 100) }]
      else []
    else []

/-- The previous-citation query of `checkForAlerts`: the citation stream
for the (keyword, platform) pair in descending `tracked_at` order, with
`OFFSET 1 LIMIT 1` — the second most recent row. -/
def previousRowForAlerts (citationsDesc : List CitationRec) : Option PrevCitationRow :=
  ((citationsDesc.drop 1).head?).map (fun c => ⟨c.domain_mentioned, c.citation_position⟩)

/-- The worker's alert step after a tracking attempt: `citationsDesc` is
the persisted citation stream for the (keyword, platform) pair after the
attempt (a successful attempt has already stored its citation at the head;
a failed one stored nothing), and `result` is the attempt's citation. -/
def alertsAfterAttempt (citationsDesc : List CitationRec) (result : Option CitationRec) :
    List AlertRec :=
  checkForAlerts (previousRowForAlerts citationsDesc) result

/-- `DECIMAL(6,2)` storage of `alerts.change_percent`: PostgreSQL rounds a
numeric to the declared scale, half away from zero. -/
def pgRound2 (q : ℚ) : ℚ :=
  if 0 ≤ q then (⌊q * 100 + 1 / 2⌋ : ℚ) / 100
  else -((⌊-q * 100 + 1 / 2⌋ : ℚ) / 100)

/-! ## Frequency score (`calculateFrequencyScore`, scoring.ts
lines 138–148) -/

/-- `calculateFrequencyScore(rows, totalKeywords)`: each element of
`citationCounts` is one grouped row's `citation_count`, i.e. its 30-day
count of citations with `domain_mentioned = true`.  Returns 0 outright when
`totalKeywords === 0`, else `min(100, totalCitations / totalKeywords *
20)`. -/
def calculateFrequencyScore (citationCounts : List Nat) (totalKeywords : Nat) : ℚ :=
  if totalKeywords = 0 then 0
  else
    let totalCitations : ℚ := ((citationCounts.map (fun n => (n : ℚ))).sum)
    ratMin 100 (totalCitations / (totalKeywords : ℚ) * 20)

/-- The frequency component as the claim words it:
`min(100, (|C_self| / max(K,1)) × 20)`.  Written from the claim, for
comparison with `calculateFrequencyScore`. -/
def frequencyScoreClaim (citationCounts : List Nat) (totalKeywords : Nat) : ℚ :=
  ratMin 100 (((citationCounts.map (fun n => (n : ℚ))).sum / (max totalKeywords 1 : ℕ)) * 20)

/-! ## Keyword table and the quick-test route (`routes/public.ts`
POST `/quick-test`, `trackKeyword` in trackingEngine.ts lines 58–94) -/

/-- A `keywords` row (the columns `trackKeyword` touches). -/
structure KeywordRow where
  id : String
  project_id : String
  last_tracked_at : Option Nat
deriving DecidableEq, Repr

/-- The persistent state `trackKeyword` reads and writes. -/
structure DBState where
  citations : List CitationRec
  keywords : List KeywordRow
deriving DecidableEq, Repr

/-- The outcome of one platform iteration inside `trackKeyword`: the
platform name and, when `trackOnPlatform` succeeded, the provider
response (a thrown error or an error response yields no citation and
nothing stored). -/
def successCitations (keywordId projectId primaryDomain : String)
    (outcomes : List (String × Option AIPlatformResponse)) (now : Nat) :
    List CitationRec :=
  outcomes.filterMap (fun po =>
    po.2.map (fun resp => buildCitation keywordId projectId po.1 primaryDomain resp now))

/-- `trackKeyword(keyword, project, platforms)`: store one citation per
successful platform, then update the keyword's `last_tracked_at`
(`UPDATE keywords SET last_tracked_at = NOW() WHERE id = $1`). -/
def trackKeywordState (keywordId projectId primaryDomain : String)
    (outcomes : List (String × Option AIPlatformResponse)) (now : Nat)
    (db : DBState) : DBState :=
  { citations := db.citations ++ successCitations keywordId projectId primaryDomain outcomes now
    keywords := db.keywords.map (fun k =>
      if k.id = keywordId then { k with last_tracked_at := some now } else k) }

/-- `router.post('/quick-test')`: run `trackKeyword` on the mock keyword
and project (both with id `'test'`, `primary_domain` the requested domain),
then `DELETE FROM citations WHERE keyword_id = 'test'`. -/
def quickTest (domain : String) (outcomes : List (String × Option AIPlatformResponse))
    (now : Nat) (db : DBState) : DBState :=
  let db1 := trackKeywordState "test" "test" domain outcomes now db
  { db1 with citations := db1.citations.filter (fun c => !(c.keyword_id == "test")) }

/-! ## Concrete sample values used by witnesses and counterexamples -/

/-- A provider answer citing the target host twice under two distinct URLs
(URL-level dedup in the adapters keeps both). -/
def respTwoSelf : AIPlatformResponse :=
  { response_text := "hi"
    citations := [⟨"https://example.com/a", none, 1, "example.com"⟩,
                  ⟨"https://blog.example.com/b", none, 2, "blog.example.com"⟩]
    response_time_ms := 100 }

/-- A provider answer with one target citation and one competitor. -/
def respOneSelf : AIPlatformResponse :=
  { response_text := "hi"
    citations := [⟨"https://other.com/x", none, 1, "other.com"⟩,
                  ⟨"https://example.com/a", none, 2, "example.com"⟩]
    response_time_ms := 100 }

/-- A minimal persisted citation with the given mention flag and position. -/
def sampleCitation (mentioned : Bool) (pos : Option Nat) : CitationRec :=
  { keyword_id := "k1", project_id := "p1", platform := "gemini", tracked_at := 0
    domain_mentioned := mentioned, specific_url := none, citation_position := pos
    citation_context := none, full_response_text := "", response_summary := ""
    sentiment := Sentiment.neutral, confidence_score := 0, word_count := 0
    competitor_citations := [], total_sources_cited := 0 }

/-! # Theorems -/

/-- Splitting a list into the entries satisfying `p` (counted) and the
entries failing `p` (kept) recovers its length. -/
theorem countP_add_length_filter_not {α : Type} (p : α → Bool) (l : List α) :
    l.countP p + (l.filter (fun a => !p a)).length = l.length := by
  induction l with
  | nil => simp
  | cons a t ih =>
    by_cases h : p a = true <;>
      simp only [List.countP_cons, List.filter_cons, h] <;> simp <;> omega

/-- C10: for every provider response the confidence score lies in
[0.5, 0.9] — the base is 0.5, the bonuses total at most 0.4, and the final
clamp to [0,1] never binds. -/
theorem calculateConfidence_bounds (response : AIPlatformResponse) :
    1 / 2 ≤ calculateConfidence response ∧ calculateConfidence response ≤ 9 / 10 := by
  simp only [calculateConfidence, ratMin, ratMax]
  split_ifs <;> norm_num <;> linarith

/-- C9 counterexample: with zero active keywords and one self-citation row
the code returns 0, while the claimed formula
`min(100, (|C_self| / max(K,1)) × 20)` gives 20. -/
theorem frequencyScore_claim_counterexample :
    calculateFrequencyScore [1] 0 = 0 ∧ frequencyScoreClaim [1] 0 = 20 := by
  constructor
  · rfl
  · with_unfolding_all decide

/-- C9 amended: the frequency component is 0 whenever the project has zero
active keywords; for a positive keyword count it agrees with the claimed
`min(100, (|C_self| / max(K,1)) × 20)`. -/
theorem frequencyScore_amended (citationCounts : List Nat) (K : Nat) :
    calculateFrequencyScore citationCounts 0 = 0 ∧
    (0 < K → calculateFrequencyScore citationCounts K = frequencyScoreClaim citationCounts K) := by
  constructor
  · simp [calculateFrequencyScore]
  · intro hK
    have h0 : ¬ K = 0 := Nat.pos_iff_ne_zero.mp hK
    have hmax : max K 1 = K := Nat.max_eq_left hK
    simp [calculateFrequencyScore, frequencyScoreClaim, h0, hmax]

/-- Witness for `frequencyScore_amended` at 2 self-citations and
3 keywords. -/
theorem frequencyScore_amended_witness :
    calculateFrequencyScore [2] 3 = frequencyScoreClaim [2] 3 ∧
    calculateFrequencyScore [2] 3 = 40 / 3 :=
  ⟨(frequencyScore_amended [2] 3).2 (by decide), by with_unfolding_all decide⟩

/-- C4: the worker's catch block always writes `status = 'failed'` with an
incremented `retry_count`; at a first failure (`retry_count = 0 <
maxRetries = 3`) the spec's rule — whose `'retrying'` status the schema's
CHECK constraint declares and the `/tracking/queue` route treats as
non-terminal — would instead write `'retrying'`. -/
theorem onJobException_always_failed :
    (onJobException ⟨7, "p1", "k1", "gemini", 0, "processing", 0⟩).status = "failed" ∧
    (onJobException ⟨7, "p1", "k1", "gemini", 0, "processing", 0⟩).retry_count = 1 ∧
    (0 : Nat) < 3 ∧
    (onJobExceptionSpec ⟨7, "p1", "k1", "gemini", 0, "processing", 0⟩ 3).status = "retrying" := by
  decide

/-- C2: submitting the same schedule batch twice (one keyword, one
platform, same `scheduled_at`) inserts two pending rows over a single
unique `(projectId, keywordId, platform, scheduled_at)` tuple:
`tracking_jobs` has no unique index on that tuple, so
`ON CONFLICT DO NOTHING` never fires. -/
theorem scheduleJobs_twice_duplicates :
    pendingCount (scheduleJobs (scheduleJobs ⟨[], 0⟩ "p1" ["k1"] ["gemini"] 5)
      "p1" ["k1"] ["gemini"] 5) = 2 ∧
    (((scheduleJobs (scheduleJobs ⟨[], 0⟩ "p1" ["k1"] ["gemini"] 5)
        "p1" ["k1"] ["gemini"] 5).rows.map
      (fun r => (r.project_id, r.keyword_id, r.platform, r.scheduled_at))).dedup).length = 1 := by
  decide

/-- C6 counterexample: on `"acme is bad bad best"` with domain `"acme"`
the claim's occurrence counting gives negative (2 negative occurrences
against 1 positive), but the code counts each lexicon word at most once and
returns neutral. -/
theorem analyzeSentiment_claim_counterexample :
    sentimentClaim "acme is bad bad best" "acme" = Sentiment.negative ∧
    analyzeSentiment "acme is bad bad best" "acme" = Sentiment.neutral := by
  decide

/-- C6 amended: sentiment counts the number of distinct lexicon words
occurring as substrings of the kept sentences (each word contributing at
most once, however many times it repeats), with the comparison and the
empty-selection default as claimed. -/
theorem analyzeSentiment_amended (text domain : String) :
    analyzeSentiment text domain = sentimentAmended text domain := by
  unfold analyzeSentiment sentimentAmended
  cases h : (splitSentences text).filter
      (fun s => containsSub (toLowerStr s) (toLowerStr domain)) with
  | nil => simp [h]
  | cons a l => simp [h, List.countP_eq_length_filter]

set_option maxRecDepth 8000 in
/-- C5 counterexample: a 501-character text with no sentence boundary is
hard-truncated to 500 characters with `"..."` appended, so the stored
summary is 503 characters long — the claimed ≤ 500 bound fails. -/
theorem generateSummary_claim_counterexample :
    (generateSummary (String.mk (List.replicate 501 'a'))).length = 503 ∧
    500 < (generateSummary (String.mk (List.replicate 501 'a'))).length := by
  constructor <;> with_unfolding_all decide

/-- The threshold comparison of `generateSummaryL` at `maxLength = 500`:
the rational (and IEEE) product `0.7 × 500` is exactly 350. -/
theorem summaryThreshold_iff (i : Int) :
    ((7 : ℚ) / 10 * ((500 : Nat) : ℚ) < (i : ℚ)) ↔ 350 < i := by
  rw [show (7 : ℚ) / 10 * ((500 : Nat) : ℚ) = ((350 : Int) : ℚ) by norm_num, Int.cast_lt]

/-- C5 amended: the summary is at most 503 characters, not 500.  A text of
at most 500 characters passes through unchanged; a longer text is cut just
after the last `'.'` of its first 500 characters when that dot's index
strictly exceeds 350 (giving at most 500 characters), and otherwise is the
first 500 characters with `"..."` appended — exactly 503 characters. -/
theorem generateSummary_amended (text : String) :
    (generateSummary text).length ≤ 503 ∧
    (text.length ≤ 500 → generateSummary text = text) ∧
    (500 < text.length → 350 < lastIndexOfDot (text.data.take 500) →
      (generateSummary text).length ≤ 500) ∧
    (500 < text.length → ¬ 350 < lastIndexOfDot (text.data.take 500) →
      generateSummary text = String.mk (text.data.take 500 ++ ['.', '.', '.']) ∧
      (generateSummary text).length = 503) := by
  have hlen : text.length = text.data.length := rfl
  have hmk : String.mk text.data = text := by cases text; rfl
  by_cases h : text.data.length ≤ 500
  · have hgs : generateSummary text = text := by
      unfold generateSummary generateSummaryL
      rw [if_pos h, hmk]
    refine ⟨?_, fun _ => hgs, fun h5 => absurd h (by omega), fun h5 => absurd h (by omega)⟩
    rw [hgs, hlen]; omega
  · by_cases hdot : 350 < lastIndexOfDot (text.data.take 500)
    · have hgs : generateSummary text =
          String.mk ((text.data.take 500).take
            (lastIndexOfDot (text.data.take 500) + 1).toNat) := by
        unfold generateSummary generateSummaryL
        rw [if_neg h, if_pos ((summaryThreshold_iff _).mpr hdot)]
      have hb : (generateSummary text).length ≤ 500 := by
        rw [hgs]
        show ((text.data.take 500).take _).length ≤ 500
        simp [List.length_take]
      exact ⟨le_trans hb (by omega), fun hc => absurd hc (by omega),
        fun _ _ => hb, fun _ hc => absurd hdot hc⟩
    · have hgs : generateSummary text = String.mk (text.data.take 500 ++ ['.', '.', '.']) := by
        unfold generateSummary generateSummaryL
        rw [if_neg h, if_neg (fun hc => hdot ((summaryThreshold_iff _).mp hc))]
      have hb : (generateSummary text).length = 503 := by
        rw [hgs]
        show (text.data.take 500 ++ ['.', '.', '.']).length = 503
        simp [List.length_take]
        omega
      exact ⟨by omega, fun hc => absurd hc (by omega),
        fun _ hc => absurd hc hdot, fun _ _ => ⟨hgs, hb⟩⟩

set_option maxRecDepth 8000 in
/-- Witness for `generateSummary_amended`: a short text passes through; a
501-character dotless text becomes 503 characters. -/
theorem generateSummary_amended_witness :
    generateSummary "tiny" = "tiny" ∧
    (generateSummary (String.mk (List.replicate 501 'a'))).length = 503 :=
  ⟨(generateSummary_amended "tiny").2.1 (by decide),
   ((generateSummary_amended (String.mk (List.replicate 501 'a'))).2.2.2
     (by with_unfolding_all decide) (by with_unfolding_all decide)).2⟩

/-- C1 counterexample: a response citing the target host under two
distinct URLs persists `total_sources_cited = 2`, while the claimed formula
`(domain_mentioned ? 1 : 0) + |competitor_citations|` gives 1 — the two
target entries do not collapse. -/
theorem totalSources_claim_counterexample :
    (buildCitation "k" "p" "gemini" "example.com" respTwoSelf 0).total_sources_cited = 2 ∧
    ((if (buildCitation "k" "p" "gemini" "example.com" respTwoSelf 0).domain_mentioned
        then 1 else 0) +
      (buildCitation "k" "p" "gemini" "example.com" respTwoSelf 0).competitor_citations.length)
      = 1 := by
  with_unfolding_all decide

/-- C1 amended: `total_sources_cited` is the full length of the provider's
citation list, i.e. the number of entries matching the primary domain plus
`|competitor_citations|`; the claimed formula holds exactly when at most one
entry matches the primary domain. -/
theorem totalSources_amended (kid pid plat dom : String) (resp : AIPlatformResponse)
    (now : Nat) :
    (buildCitation kid pid plat dom resp now).total_sources_cited =
      resp.citations.countP (fun c => domainMatches c.domain dom) +
      (buildCitation kid pid plat dom resp now).competitor_citations.length ∧
    (resp.citations.countP (fun c => domainMatches c.domain dom) ≤ 1 →
      (buildCitation kid pid plat dom resp now).total_sources_cited =
        (if (buildCitation kid pid plat dom resp now).domain_mentioned then 1 else 0) +
        (buildCitation kid pid plat dom resp now).competitor_citations.length) := by
  have hcomp : (buildCitation kid pid plat dom resp now).competitor_citations.length =
      (resp.citations.filter (fun c => !domainMatches c.domain dom)).length := by
    simp [buildCitation, competitorCitationsOf]
  have htot : (buildCitation kid pid plat dom resp now).total_sources_cited =
      resp.citations.length := rfl
  have hsplit := countP_add_length_filter_not
    (fun c => domainMatches c.domain dom) resp.citations
  constructor
  · rw [htot, hcomp, ← hsplit]
  · intro h1
    have hmen : (buildCitation kid pid plat dom resp now).domain_mentioned =
        resp.citations.any (fun c => domainMatches c.domain dom) := rfl
    rw [htot, hcomp, hmen, ← hsplit]
    rcases Nat.lt_or_ge 0 (resp.citations.countP (fun c => domainMatches c.domain dom))
      with hpos | hzero
    · have hone : resp.citations.countP (fun c => domainMatches c.domain dom) = 1 := by
        omega
      have hany : resp.citations.any (fun c => domainMatches c.domain dom) = true := by
        rw [List.any_eq_true]
        exact List.countP_pos_iff.mp hpos
      rw [hany, hone]
      simp
    · have hz : resp.citations.countP (fun c => domainMatches c.domain dom) = 0 := by
        omega
      have hany : resp.citations.any (fun c => domainMatches c.domain dom) = false := by
        rw [← Bool.not_eq_true, List.any_eq_true]
        intro hex
        exact absurd hz (Nat.pos_iff_ne_zero.mp (List.countP_pos_iff.mpr hex))
      rw [hany, hz]
      simp

/-- Witness for `totalSources_amended`: with a single matching entry and a
single competitor the claimed formula does hold. -/
theorem totalSources_amended_witness :
    (buildCitation "k" "p" "gemini" "example.com" respOneSelf 0).total_sources_cited =
      (if (buildCitation "k" "p" "gemini" "example.com" respOneSelf 0).domain_mentioned
        then 1 else 0) +
      (buildCitation "k" "p" "gemini" "example.com" respOneSelf 0).competitor_citations.length :=
  (totalSources_amended "k" "p" "gemini" "example.com" respOneSelf 0).2 (by decide)

/-- C3: the quick-test route leaves persistent state unchanged: under the
schema's constraints (keyword ids are UUIDs, so no keyword row has id
`'test'`, and every citation's `keyword_id` references a keyword row), the
run's citations are all inserted under `keyword_id = 'test'` and deleted at
the end, and the `last_tracked_at` update targets the absent id `'test'`. -/
theorem quickTest_frame (domain : String)
    (outcomes : List (String × Option AIPlatformResponse)) (now : Nat) (db : DBState)
    (hk : ∀ k ∈ db.keywords, k.id ≠ "test")
    (hc : ∀ c ∈ db.citations, c.keyword_id ≠ "test") :
    quickTest domain outcomes now db = db := by
  obtain ⟨cits, kws⟩ := db
  simp only at hk hc
  have hnew : ∀ c ∈ successCitations "test" "test" domain outcomes now,
      c.keyword_id = "test" := by
    intro c hcmem
    rcases List.mem_filterMap.mp hcmem with ⟨po, _, hpo⟩
    rcases Option.map_eq_some'.mp hpo with ⟨resp, _, hb⟩
    rw [← hb]
    rfl
  have hkeys : kws.map (fun k =>
      if k.id = "test" then { k with last_tracked_at := some now } else k) = kws := by
    conv_rhs => rw [← List.map_id kws]
    apply List.map_congr_left
    intro k hkmem
    simp [hk k hkmem]
  have hcit : (cits ++ successCitations "test" "test" domain outcomes now).filter
      (fun c => !(c.keyword_id == "test")) = cits := by
    rw [List.filter_append]
    have h1 : cits.filter (fun c => !(c.keyword_id == "test")) = cits := by
      apply List.filter_eq_self.mpr
      intro c hcmem
      simp [hc c hcmem]
    have h2 : (successCitations "test" "test" domain outcomes now).filter
        (fun c => !(c.keyword_id == "test")) = [] := by
      apply List.filter_eq_nil_iff.mpr
      intro c hcmem
      simp [hnew c hcmem]
    rw [h1, h2, List.append_nil]
  simp only [quickTest, trackKeywordState]
  rw [hcit, hkeys]


/-- Witness for `quickTest_frame` on a one-keyword, one-citation state with
one successful platform outcome. -/
theorem quickTest_frame_witness :
    quickTest "example.com" [("gemini", some respOneSelf)] 9
      ⟨[sampleCitation true (some 1)], [⟨"k1", "p1", none⟩]⟩ =
      ⟨[sampleCitation true (some 1)], [⟨"k1", "p1", none⟩]⟩ :=
  quickTest_frame "example.com" [("gemini", some respOneSelf)] 9 _ (by decide) (by decide)

/-- C7 counterexample: a failed tracking attempt (no citation persisted)
against a stream of two prior mentioning citations still emits a
`lost_citation` alert — the `OFFSET 1` query returns the second most recent
row (here the older one, position 1) and the absent current citation reads
as not mentioned. -/
theorem lostCitation_claim_counterexample :
    alertsAfterAttempt [sampleCitation true (some 2), sampleCitation true (some 1)] none =
      [{ alert_type := "lost_citation", severity := "warning"
         previous_value := some "1", current_value := none, change_percent := none }] := by
  decide

/-- Characterization of the lost-citation branch of `checkForAlerts`: it
fires exactly when the fetched previous row mentions the domain and the
current citation is absent or does not, and then it is the only alert. -/
theorem checkForAlerts_lost_char (prev : PrevCitationRow) (result : Option CitationRec) :
    ((checkForAlerts (some prev) result).any
        (fun a => a.alert_type == "lost_citation") = true ↔
      prev.domain_mentioned = true ∧ mentionedTruthy result = false) ∧
    (prev.domain_mentioned = true → mentionedTruthy result = false →
      checkForAlerts (some prev) result =
        [{ alert_type := "lost_citation", severity := "warning"
           previous_value := prev.citation_position.map toString
           current_value := none, change_percent := none }]) := by
  unfold checkForAlerts
  dsimp only
  split_ifs with h1 h2 h3 <;> simp_all

/-- C7 amended: a `lost_citation` alert (severity warning, `previous_value`
the previous row's `citation_position`) is emitted exactly when the row at
offset 1 of the `tracked_at`-descending citation stream — the most recent
prior citation only when the attempt just persisted one — has
`domain_mentioned = true` while the current attempt's citation is absent or
has `domain_mentioned = false`; in particular a failed attempt that
persisted nothing can still emit one. -/
theorem alertsAfterAttempt_lost_amended (citationsDesc : List CitationRec)
    (result : Option CitationRec) :
    ((alertsAfterAttempt citationsDesc result).any
        (fun a => a.alert_type == "lost_citation") = true ↔
      ∃ p, previousRowForAlerts citationsDesc = some p ∧ p.domain_mentioned = true ∧
        mentionedTruthy result = false) ∧
    (∀ p, previousRowForAlerts citationsDesc = some p → p.domain_mentioned = true →
      mentionedTruthy result = false →
      alertsAfterAttempt citationsDesc result =
        [{ alert_type := "lost_citation", severity := "warning"
           previous_value := p.citation_position.map toString
           current_value := none, change_percent := none }]) := by
  unfold alertsAfterAttempt
  cases hprev : previousRowForAlerts citationsDesc with
  | none =>
    refine ⟨⟨fun hany => ?_, ?_⟩, fun p hp => absurd hp (by simp)⟩
    · unfold checkForAlerts at hany
      cases hcur : mentionedTruthy result <;> simp [hcur] at hany
    · rintro ⟨p, hp, _⟩
      exact absurd hp (by simp)
  | some prev =>
    have hch := checkForAlerts_lost_char prev result
    refine ⟨⟨fun hany => ⟨prev, rfl, (hch.1.mp hany)⟩, ?_⟩, fun p hp h1 h2 => ?_⟩
    · rintro ⟨p, hp, h1, h2⟩
      obtain rfl : prev = p := by injection hp
      exact hch.1.mpr ⟨h1, h2⟩
    · obtain rfl : prev = p := by injection hp
      exact hch.2 h1 h2

/-- Witness for `alertsAfterAttempt_lost_amended`: a successful attempt
whose new citation (head of the stream) lost the mention of the previous
one emits exactly the lost-citation alert. -/
theorem alertsAfterAttempt_lost_witness :
    alertsAfterAttempt [sampleCitation false none, sampleCitation true (some 1)]
        (some (sampleCitation false none)) =
      [{ alert_type := "lost_citation", severity := "warning"
         previous_value := some "1", current_value := none, change_percent := none }] :=
  (alertsAfterAttempt_lost_amended _ _).2 ⟨true, some 1⟩ (by decide) (by decide) (by decide)

/-- C8: when the previous row and the current citation both carry non-null
(1-based, hence positive) positions and the current citation mentions the
domain, a `position_change` alert is emitted iff the absolute position
difference is at least 2, with severity `info` when the position improved
(numerically decreased) and `warning` otherwise, and with
`change_percent = (prev − curr) / prev × 100`. -/
theorem positionChange_alert (prev : PrevCitationRow) (cur : CitationRec)
    (pp cp : Nat) (hp : prev.citation_position = some pp) (hpp : 0 < pp)
    (hc : cur.citation_position = some cp) (hcp : 0 < cp)
    (hm : cur.domain_mentioned = true) :
    ((checkForAlerts (some prev) (some cur)).any
        (fun a => a.alert_type == "position_change") = true ↔
      2 ≤ ((pp : Int) - (cp : Int)).natAbs) ∧
    (2 ≤ ((pp : Int) - (cp : Int)).natAbs →
      checkForAlerts (some prev) (some cur) =
        [{ alert_type := "position_change"
           severity := if cp < pp then "info" else "warning"
           previous_value := some (toString pp)
           current_value := some (toString cp)
           change_percent := some (((pp : ℚ) - (cp : ℚ)) / (pp : ℚ) * 100) }]) := by
  unfold checkForAlerts
  dsimp only
  have hb1 : (prev.domain_mentioned && !mentionedTruthy (some cur)) = false := by
    simp [mentionedTruthy, hm]
  have hb2 : (posTruthy prev.citation_position &&
      posTruthy ((some cur).bind (fun x => x.citation_position))) = true := by
    simp [posTruthy, hp, hc, Nat.pos_iff_ne_zero.mp hpp, Nat.pos_iff_ne_zero.mp hcp]
  rw [hb1]
  simp only [Bool.false_eq_true, if_false, hb2, if_true]
  dsimp only [Option.bind]
  simp only [hp, hc]
  dsimp only [Option.getD]
  have hcast : (((pp : Int) - (cp : Int) : Int) : ℚ) = (pp : ℚ) - (cp : ℚ) := by
    push_cast
    ring
  constructor
  · by_cases hd : 2 ≤ ((pp : Int) - (cp : Int)).natAbs <;> simp [hd, hc]
  · intro hd
    rw [if_pos hd]
    have h2 : (if (0 : Int) < (pp : Int) - (cp : Int) then "info" else "warning") =
        (if cp < pp then "info" else "warning") := by
      by_cases h : cp < pp
      · rw [if_pos h, if_pos (by omega)]
      · rw [if_neg h, if_neg (by omega)]
    simp only [hcast, h2]

/-- The `DECIMAL(6,2)` column rounds the spec example's exact ratio 200/3
to the persisted 66.67. -/
theorem pgRound2_at_two_thirds : pgRound2 (200 / 3) = 6667 / 100 := by
  unfold pgRound2
  rw [if_pos (by norm_num)]
  have h1 : ((200 : ℚ) / 3 * 100 + 1 / 2) = 40003 / 6 := by norm_num
  rw [h1]
  have h2 : ⌊(40003 / 6 : ℚ)⌋ = 6667 := by
    rw [Int.floor_eq_iff]
    norm_num
  rw [h2]
  norm_num

/-- Witness for `positionChange_alert`: previous position 3, current 1 —
severity `info`, exact `change_percent` 200/3, persisted as 66.67; previous
2, current 3 — below the threshold, no alert. -/
theorem positionChange_alert_witness :
    checkForAlerts (some ⟨true, some 3⟩) (some (sampleCitation true (some 1))) =
      [{ alert_type := "position_change", severity := "info"
         previous_value := some "3", current_value := some "1"
         change_percent := some (200 / 3) }] ∧
    pgRound2 (200 / 3) = 6667 / 100 ∧
    checkForAlerts (some ⟨true, some 2⟩) (some (sampleCitation true (some 3))) = [] := by
  refine ⟨?_, pgRound2_at_two_thirds, ?_⟩
  · have h := (positionChange_alert ⟨true, some 3⟩ (sampleCitation true (some 1)) 3 1 rfl
      (by decide) rfl (by decide) rfl).2 (by decide)
    exact h.trans (by with_unfolding_all decide)
  · decide

end AIRank
